import Mathlib

/-!
Verification development for the EVVOS WiFi hotspot provisioning agent
(src/evvos_provisioning.py, class EVVOSWiFiProvisioner).

The embedding models the provisioner's externally visible state: the
persisted credential file (CREDS_FILE, /etc/evvos/device_credentials.json),
the transient handoff state file (/tmp/evvos_ble_state.json), and the two
in-memory fields self.credentials and self.received_credentials.  External
probes (WiFi connect commands, association checks, internet reachability,
Supabase calls) are slow OS/network effects whose boolean outcomes are
supplied by an environment record, indexed by attempt number exactly as the
source's bounded retry loops consume them.
-/

/-- Contents of the persisted credential file, as written by
_save_credentials (evvos_provisioning.py lines 125-146): keys ssid,
password, provisioned_at, device_id always present, user_id present only
when a non-empty user_id was passed. -/
structure StoredCreds where
  ssid : String
  password : String
  provisioned_at : String
  device_id : String
  user_id : Option String
deriving Repr, DecidableEq

/-- Contents of the transient handoff state file, as written by
_handle_credentials (lines 1027-1036) and _handle_credentials_get
(lines 1071-1078): status is always the literal "processing"; the GET
test path writes no user_id key, modelled as none. -/
structure PendingState where
  status : String
  user_id : Option String
  ssid : String
  password : String
  timestamp : String
deriving Repr, DecidableEq

/-- The in-memory self.received_credentials dictionary built by
_wait_for_hotspot_credentials (lines 1308-1312); user_id defaults to the
empty string when the state file has no user_id key. -/
structure RecvCreds where
  ssid : String
  password : String
  user_id : String
deriving Repr, DecidableEq

/-- Observable state of the provisioner: the two files plus the two
in-memory credential fields, together with the per-boot device identity
and the current wall-clock reading used for timestamps. -/
structure DevState where
  device_id : String
  now : String
  credsFile : Option StoredCreds
  stateFile : Option PendingState
  credentials : Option StoredCreds
  received_credentials : Option RecvCreds
deriving Repr, DecidableEq

/-- Embedding of _delete_credentials (lines 148-158): when the credential
file exists it is removed, self.credentials is set to None and True is
returned; when the file is already absent the body of the if is skipped
and the function returns False with nothing changed. -/
def deleteCredentials (st : DevState) : Bool × DevState :=
  if st.credsFile.isSome then
    (true, { st with credsFile := none, credentials := none })
  else
    (false, st)

/-- Embedding of _save_credentials (lines 125-146): writes the credential
file with ssid, password, a wall-clock timestamp and the device id, adding
the user_id key only when user_id is truthy (a non-empty string), and
updates self.credentials to the same dictionary. -/
def saveCredentials (ssid password user_id : String) (st : DevState) : DevState :=
  let creds : StoredCreds :=
    { ssid := ssid
      password := password
      provisioned_at := st.now
      device_id := st.device_id
      user_id := if user_id = "" then none else some user_id }
  { st with credsFile := some creds, credentials := some creds }

/-- Embedding of _handle_disconnect (lines 200-281): step 1 calls
_delete_credentials; step 2 (Supabase patch), step 3 interface flush and
step 4 process kills are external effects; step 3 also removes the state
file when it exists; step 5 unconditionally resets self.credentials and
self.received_credentials to None. -/
def handleDisconnect (st : DevState) : DevState :=
  let st1 := (deleteCredentials st).2
  let st2 := { st1 with stateFile := none }
  { st2 with credentials := none, received_credentials := none }

/-- Embedding of _check_disconnect_requested (lines 160-198): returns
False when self.credentials is None or its user_id entry is missing or
empty; otherwise the result is the backend's disconnect_requested flag
(any transport error is also treated as False, folded into the flag). -/
def checkDisconnectRequested (flag : Bool) (st : DevState) : Bool :=
  match st.credentials with
  | none => false
  | some c =>
    match c.user_id with
    | none => false
    | some u => if u = "" then false else flag

/-- One 10-second cycle of the monitor loop body in _monitor_connectivity
(lines 1520-1561): if a disconnect request is detected, _handle_disconnect
runs and the loop breaks (first component true); otherwise only the
state-free heartbeat logic runs and the loop continues. -/
def monitorCycle (flag : Bool) (st : DevState) : Bool × DevState :=
  if checkDisconnectRequested flag st then (true, handleDisconnect st)
  else (false, st)

/-- Fuel-bounded run of the monitor loop of _monitor_connectivity: the
loop only ever terminates by the break after a detected disconnect; the
first component records whether it stopped within the given number of
cycles. -/
def monitorRun (flags : Nat → Bool) : Nat → DevState → Bool × DevState
  | 0, st => (false, st)
  | Nat.succ k, st =>
    if checkDisconnectRequested (flags 0) st then (true, handleDisconnect st)
    else monitorRun (fun n => flags (n + 1)) k st

/-- The branch taken at the top of _provision_wifi (line 1450): the stored
client path when self.credentials is truthy, the hotspot path otherwise. -/
inductive Branch
  | storedClient
  | hotspot
deriving Repr, DecidableEq

/-- Branch selection of _provision_wifi, line 1450: if self.credentials. -/
def nextBranch (st : DevState) : Branch :=
  if st.credentials.isSome then Branch.storedClient else Branch.hotspot

/-- Postcondition of the disconnect procedure named by the spec: store
absent on disk, handoff state file absent, both in-memory credential
fields cleared, and the next orchestrator iteration selecting the hotspot
branch. -/
def postDisconnect (st : DevState) : Prop :=
  st.credsFile = none ∧ st.stateFile = none ∧ st.credentials = none ∧
  st.received_credentials = none ∧ nextBranch st = Branch.hotspot

/-- Python str.strip: drop leading and trailing whitespace characters.
Implemented over the character list so that it reduces in the kernel. -/
def pyStrip (s : String) : String :=
  String.mk ((((s.toList).dropWhile Char.isWhitespace).reverse.dropWhile Char.isWhitespace).reverse)

/-- Helper for splitLines, accumulating the current line in reverse. -/
def splitLinesAux : List Char → List Char → List String
  | [], acc => [String.mk acc.reverse]
  | c :: cs, acc =>
    if c = '\n' then String.mk acc.reverse :: splitLinesAux cs []
    else splitLinesAux cs (c :: acc)

/-- Python str.split over the newline character, as used on the stdout of
ip addr show; empty pieces are kept. -/
def splitLines (s : String) : List String :=
  splitLinesAux s.toList []

/-- JSON body of a POST /provision request; a key absent from the parsed
dictionary is none and data.get defaults it to the empty string. -/
structure SubmitBody where
  user_id : Option String
  ssid : Option String
  password : Option String
deriving Repr, DecidableEq

/-- HTTP status code of a handler response. -/
structure HttpResponse where
  status : Nat
deriving Repr, DecidableEq

/-- Embedding of _handle_credentials (lines 997-1054), the POST /provision
intake handler: reads user_id, ssid, password with empty-string defaults,
strips surrounding whitespace, rejects with a 400 validation error when
any of the three is empty (writing nothing), and otherwise writes the
handoff state file with status processing and returns 200.  Its only
write is the state file; it performs no network reconfiguration. -/
def handleCredentials (body : SubmitBody) (st : DevState) : HttpResponse × DevState :=
  let user_id := pyStrip (body.user_id.getD "")
  let ssid := pyStrip (body.ssid.getD "")
  let password := pyStrip (body.password.getD "")
  if user_id = "" ∨ ssid = "" ∨ password = "" then
    ({ status := 400 }, st)
  else
    let pending : PendingState :=
      { status := "processing", user_id := some user_id, ssid := ssid,
        password := password, timestamp := st.now }
    ({ status := 200 }, { st with stateFile := some pending })

/-- Query string of a GET /provision request. -/
structure GetQuery where
  ssid : Option String
  password : Option String
deriving Repr, DecidableEq

/-- Embedding of _handle_credentials_get (lines 1056-1090), the GET
/provision test variant: reads only ssid and password from the query
string (there is no user_id parameter at all); when both are non-empty
after stripping it writes the handoff state file, without a user_id key,
and returns 200; otherwise it returns 405 without writing. -/
def handleCredentialsGet (q : GetQuery) (st : DevState) : HttpResponse × DevState :=
  let ssid := pyStrip (q.ssid.getD "")
  let password := pyStrip (q.password.getD "")
  if ssid ≠ "" ∧ password ≠ "" then
    let pending : PendingState :=
      { status := "processing", user_id := none, ssid := ssid,
        password := password, timestamp := st.now }
    ({ status := 200 }, { st with stateFile := some pending })
  else
    ({ status := 405 }, st)

/-- JSON body of a POST /disconnect request; malformed JSON is parsed as
the empty dictionary, so both keys are none. -/
structure DisconnectBody where
  user_id : Option String
  device_id : Option String
deriving Repr, DecidableEq

/-- Response of the /disconnect endpoint: status code, the success flag
and the echoed device_id field of the 200 body. -/
structure DisconnectResponse where
  status : Nat
  success : Bool
  device_id : Option String
deriving Repr, DecidableEq

/-- Embedding of _handle_disconnect_request (lines 1121-1179), the POST
/disconnect handler: strips user_id and device_id from the body with
empty-string defaults; when user_id is empty it returns 400 and schedules
nothing; otherwise it schedules _handle_disconnect as a background task
(middle component true, final component the state it produces) and
immediately returns 200 with success True and the supplied device_id
echoed back.  The supplied device_id is never compared with the device's
own identity. -/
def handleDisconnectRequest (body : DisconnectBody) (st : DevState) :
    DisconnectResponse × Bool × DevState :=
  let user_id := pyStrip (body.user_id.getD "")
  let device_id := pyStrip (body.device_id.getD "")
  if user_id = "" then
    ({ status := 400, success := false, device_id := none }, false, st)
  else
    ({ status := 200, success := true, device_id := some device_id }, true,
      handleDisconnect st)

/-- Boolean test that the second list is a prefix of the first. -/
def charsHavePrefix : List Char → List Char → Bool
  | _, [] => true
  | [], _ :: _ => false
  | a :: as, b :: bs => a == b && charsHavePrefix as bs

/-- Boolean test that the second list occurs contiguously inside the
first, the semantics of the Python substring operator in. -/
def charsContain : List Char → List Char → Bool
  | [], needle => charsHavePrefix [] needle
  | hay@(_ :: rest), needle => charsHavePrefix hay needle || charsContain rest needle

/-- Substring containment on strings: containsSub hay needle is the
Python expression needle in hay. -/
def containsSub (hay needle : String) : Bool :=
  charsContain hay.toList needle.toList

/-- Embedding of _check_wifi_connected (lines 376-398) over the captured
stdout of ip addr show dev wlan0: the lines are scanned and the check
succeeds on the first line that contains the substring "inet " and does
not contain the substring "192.168.50.1". -/
def checkWifiConnected (stdout : String) : Bool :=
  (splitLines stdout).any fun line =>
    containsSub line "inet " && !(containsSub line "192.168.50.1")

/-- Outcomes of the external network probes consumed by the bounded retry
loops, indexed by attempt number as the source consumes them: connectOk a
is the result of the a-th _connect_to_wifi call, assocOk a w the result of
the w-th _check_wifi_connected poll inside the a-th connection attempt,
and inetOk a the result of the a-th _check_internet call. -/
structure WifiEnv where
  connectOk : Nat → Bool
  assocOk : Nat → Nat → Bool
  inetOk : Nat → Bool

/-- The inner association wait of a connection attempt: up to 6 polls of
_check_wifi_connected, 5 seconds apart (lines 1461-1467 in the stored
path, lines 1367-1371 in the hotspot path), stopping at the first hit. -/
def pollAssoc (env : WifiEnv) (attempt : Nat) : Bool :=
  (List.range 6).any fun w => env.assocOk attempt (w + 1)

/-- The bounded connection loop: up to 5 attempts (range(1, 6)), each
issuing _connect_to_wifi and, when the command succeeds, polling
association up to 6 times; the loop stops at the first established
connection (lines 1456-1476 stored path, lines 1360-1375 hotspot path). -/
def tryConnect (env : WifiEnv) : Bool :=
  (List.range 5).any fun a => env.connectOk (a + 1) && pollAssoc env (a + 1)

/-- The bounded internet verification loop: up to 5 _check_internet
attempts 3 seconds apart, stopping at the first success (lines 1483-1493
stored path, lines 1403-1408 hotspot path). -/
def pollInternet (env : WifiEnv) : Bool :=
  (List.range 5).any fun a => env.inetOk (a + 1)

/-- External outcomes of one pass of _provision_with_hotspot: whether
_start_hotspot succeeds, the network probe results, and whether the
Supabase report (_report_to_supabase) and the follow-up status update
(_update_device_status_connected) succeed. -/
structure HotspotEnv where
  startOk : Bool
  net : WifiEnv
  reportOk : Bool
  statusOk : Bool

/-- Exit paths of a single pass of _provision_with_hotspot
(lines 1333-1446). -/
inductive HotspotExit
  | startFail
  | timeout
  | invalidCreds
  | connFail
  | inetFail
  | reportFail
  | statusFail
  | success
deriving Repr, DecidableEq

/-- One pass of _provision_with_hotspot (lines 1333-1446), with the
credential wait of _wait_for_hotspot_credentials (lines 1291-1331)
collapsed to a read of the handoff state file: the wait succeeds exactly
when the file holds a processing record with ssid and password keys, and
then self.received_credentials is filled from it with user_id defaulted
to the empty string.  On connection failure after the 5-attempt loop, and
on internet-verification failure after the 5-check loop, the state file is
removed and received_credentials cleared before the function restarts
itself (the caller provisionWithHotspot performs the recursion).  On the
full success path the credentials are saved, the Supabase report and
status update run, and the state file is removed only when both succeed;
when either fails the pass returns False with the state file untouched. -/
def provisionWithHotspotOnce (env : HotspotEnv) (st : DevState) : HotspotExit × DevState :=
  if env.startOk = false then (HotspotExit.startFail, st)
  else
    match st.stateFile with
    | none => (HotspotExit.timeout, st)
    | some p =>
      if p.status = "processing" then
        let rc : RecvCreds :=
          { ssid := p.ssid, password := p.password, user_id := p.user_id.getD "" }
        let st1 := { st with received_credentials := some rc }
        if rc.ssid = "" ∨ rc.password = "" then (HotspotExit.invalidCreds, st1)
        else if tryConnect env.net then
          if pollInternet env.net then
            let st2 := saveCredentials rc.ssid rc.password rc.user_id st1
            if env.reportOk then
              if env.statusOk then (HotspotExit.success, { st2 with stateFile := none })
              else (HotspotExit.statusFail, st2)
            else (HotspotExit.reportFail, st2)
          else (HotspotExit.inetFail, { st1 with stateFile := none, received_credentials := none })
        else (HotspotExit.connFail, { st1 with stateFile := none, received_credentials := none })
      else (HotspotExit.timeout, st)

/-- The recursive restart of _provision_with_hotspot: the connFail and
inetFail paths re-invoke the whole procedure (lines 1397 and 1416); the
source recursion has no cap, so the embedding is fuel-bounded, none
standing for a run that has not returned within the given fuel.  Each
restarted pass consumes the next environment in the sequence. -/
def provisionWithHotspot : Nat → (Nat → HotspotEnv) → DevState → Option (Bool × DevState)
  | 0, _, _ => none
  | Nat.succ fuel, henvs, st =>
    match provisionWithHotspotOnce (henvs 0) st with
    | (HotspotExit.connFail, st1) => provisionWithHotspot fuel (fun n => henvs (n + 1)) st1
    | (HotspotExit.inetFail, st1) => provisionWithHotspot fuel (fun n => henvs (n + 1)) st1
    | (HotspotExit.success, st1) => some (true, st1)
    | (_, st1) => some (false, st1)

/-- Embedding of _provision_wifi (lines 1448-1509): with stored
credentials it runs the 5-attempt connection loop with 6 association
polls per attempt; on association it runs the 5-attempt internet loop;
internet success returns True with no state change (the status update is
an external effect), while either failure deletes the stored credentials
and returns False without falling through to hotspot mode in the same
call.  Without stored credentials it runs the hotspot procedure. -/
def provisionWifi (fuel : Nat) (wenv : WifiEnv) (henvs : Nat → HotspotEnv)
    (st : DevState) : Option (Bool × DevState) :=
  match st.credentials with
  | some _ =>
    if tryConnect wenv then
      if pollInternet wenv then some (true, st)
      else some (false, (deleteCredentials st).2)
    else some (false, (deleteCredentials st).2)
  | none => provisionWithHotspot fuel henvs st

/-- Disk-level states the credential file passes through during a call of
_save_credentials: the file is opened with mode w, which truncates it in
place to an empty file, and json.dump then writes the full record; a
DiskFile is therefore either the truncated intermediate or a complete
record. -/
inductive DiskFile
  | truncated
  | full (c : StoredCreds)
deriving Repr, DecidableEq

/-- The sequence of on-disk states of CREDS_FILE observable during
_save_credentials (lines 137-139), starting from an arbitrary prior state
d0: open(CREDS_FILE, "w") leaves a present-but-truncated file, then
json.dump(creds, f) completes it.  There is no temporary file and no
rename in the source. -/
def saveDiskStates (c : StoredCreds) (d0 : Option DiskFile) : List (Option DiskFile) :=
  [d0, some DiskFile.truncated, some (DiskFile.full c)]

/-- The spec's at-rest invariant on the credential file: absent, or a
complete record with non-empty ssid and password. -/
def wellFormedDisk : Option DiskFile → Bool
  | none => true
  | some DiskFile.truncated => false
  | some (DiskFile.full c) => c.ssid != "" && c.password != ""

/-- Events of the orchestrator run loop in run (lines 1563-1593):
creation of the connectivity monitor task and the successive loop
iterations with the outcome of their _provision_wifi call. -/
inductive RunAction
  | startMonitor
  | loopIter (success : Bool)
deriving Repr, DecidableEq

/-- Trace of run (lines 1563-1593) over its first n loop iterations:
asyncio.create_task(self._monitor_connectivity()) is executed exactly
once, before the while loop; each iteration then only awaits
_provision_wifi and sleeps, and no statement in the loop body creates a
monitor task. -/
def runTrace (results : Nat → Bool) (n : Nat) : List RunAction :=
  RunAction.startMonitor :: (List.range n).map fun i => RunAction.loopIter (results i)

/-- Convenience constructor for the processing record written to the
handoff state file by the intake handlers. -/
def pendingOf (user_id : Option String) (ssid password timestamp : String) : PendingState :=
  { status := "processing", user_id := user_id, ssid := ssid,
    password := password, timestamp := timestamp }

/-- Concrete stored credential record used by the concrete instances. -/
def credsW : StoredCreds :=
  { ssid := "Cafe", password := "hunter2", provisioned_at := "t0",
    device_id := "D1", user_id := some "U1" }

/-- Concrete state holding stored credentials on disk and in memory. -/
def stW : DevState :=
  { device_id := "D1", now := "t1", credsFile := some credsW, stateFile := none,
    credentials := some credsW, received_credentials := none }

/-- Concrete state with no stored credentials and no pending submission. -/
def stEmptyW : DevState :=
  { device_id := "D1", now := "t1", credsFile := none, stateFile := none,
    credentials := none, received_credentials := none }

/-- Concrete pending submission as the POST intake handler writes it. -/
def pendingW : PendingState :=
  { status := "processing", user_id := some "U1", ssid := "Cafe",
    password := "hunter2", timestamp := "t1" }

/-- Concrete state with a pending submission awaiting the hotspot handoff. -/
def stPendingW : DevState :=
  { device_id := "D1", now := "t1", credsFile := none, stateFile := some pendingW,
    credentials := none, received_credentials := none }

/-- Probe environment in which every connection attempt fails. -/
def wenvFail : WifiEnv :=
  { connectOk := fun _ => false, assocOk := fun _ _ => false, inetOk := fun _ => false }

/-- Probe environment in which every probe succeeds. -/
def wenvAllOk : WifiEnv :=
  { connectOk := fun _ => true, assocOk := fun _ _ => true, inetOk := fun _ => true }

/-- Hotspot pass environment in which everything succeeds. -/
def henvAllOk : HotspotEnv :=
  { startOk := true, net := wenvAllOk, reportOk := true, statusOk := true }

/-- Hotspot pass environment in which connection and internet verification
succeed but the Supabase report fails. -/
def henvReportFail : HotspotEnv :=
  { startOk := true, net := wenvAllOk, reportOk := false, statusOk := true }

/-- Hotspot pass environment in which every connection attempt fails. -/
def henvConnFail : HotspotEnv :=
  { startOk := true, net := wenvFail, reportOk := true, statusOk := true }

/-- Captured ip addr output whose only inet address, 192.168.50.2, lies
inside the access point's reserved 192.168.50.x range (it is the first
address of the dnsmasq DHCP pool 192.168.50.2-192.168.50.100). -/
def hotspotRangeOnlyReport : String :=
  "3: wlan0: <BROADCAST,MULTICAST,UP,LOWER_UP>\n    inet 192.168.50.2/24 scope global wlan0"

/-- C1: on the stored-credentials path of _provision_wifi, whenever the
bounded retries (5 connection attempts with up to 6 association polls
each, and 5 internet checks) are exhausted without a verified connection,
the run returns False with the credential file deleted and the in-memory
credentials cleared, so the next orchestrator loop iteration takes the
hotspot-provisioning branch instead of retrying client mode with the same
stored credentials. -/
theorem stored_retry_exhaustion_enters_hotspot
    (wenv : WifiEnv) (henvs : Nat → HotspotEnv) (fuel : Nat)
    (st : DevState) (c : StoredCreds)
    (hmem : st.credentials = some c) (hfile : st.credsFile = some c)
    (hfail : ¬ (tryConnect wenv = true ∧ pollInternet wenv = true)) :
    provisionWifi fuel wenv henvs st = some (false, (deleteCredentials st).2) ∧
    (deleteCredentials st).2.credsFile = none ∧
    (deleteCredentials st).2.credentials = none ∧
    nextBranch (deleteCredentials st).2 = Branch.hotspot := by
  have hds : deleteCredentials st =
      (true, { st with credsFile := none, credentials := none }) := by
    simp [deleteCredentials, hfile]
  cases hconn : tryConnect wenv
  · simp [provisionWifi, hmem, hconn, hds, nextBranch]
  · cases hinet : pollInternet wenv
    · simp [provisionWifi, hmem, hconn, hinet, hds, nextBranch]
    · exact absurd ⟨hconn, hinet⟩ hfail

/-- C1 witness: a concrete state with stored credentials and an
environment in which every connection attempt fails. -/
theorem stored_retry_exhaustion_enters_hotspot_witness :
    provisionWifi 1 wenvFail (fun _ => henvAllOk) stW =
      some (false, (deleteCredentials stW).2) ∧
    (deleteCredentials stW).2.credsFile = none ∧
    (deleteCredentials stW).2.credentials = none ∧
    nextBranch (deleteCredentials stW).2 = Branch.hotspot :=
  stored_retry_exhaustion_enters_hotspot wenvFail (fun _ => henvAllOk) 1 stW credsW
    rfl rfl (by decide)

/-- C2: from any state with stored credentials carrying a non-empty
user_id, the disconnect procedure, whether triggered by the monitor
detecting the backend flag or scheduled by the HTTP disconnect endpoint,
leaves the credential file absent, the pending-submission state file
absent, and both in-memory credential fields cleared, so the next
orchestrator loop iteration takes the hotspot-provisioning branch. -/
theorem disconnect_clears_credentials_and_pending
    (st : DevState) (c : StoredCreds) (u : String) (body : DisconnectBody)
    (hmem : st.credentials = some c) (huid : c.user_id = some u) (hu : u ≠ "")
    (hbody : pyStrip (body.user_id.getD "") ≠ "") :
    (monitorCycle true st = (true, handleDisconnect st) ∧
      postDisconnect (handleDisconnect st)) ∧
    ((handleDisconnectRequest body st).2 = (true, handleDisconnect st) ∧
      postDisconnect (handleDisconnectRequest body st).2.2) := by
  have hpost : postDisconnect (handleDisconnect st) := by
    cases hcf : st.credsFile <;>
      simp [postDisconnect, handleDisconnect, deleteCredentials, hcf, nextBranch]
  have hreq : (handleDisconnectRequest body st).2 = (true, handleDisconnect st) := by
    simp [handleDisconnectRequest, hbody]
  refine ⟨⟨?_, hpost⟩, hreq, ?_⟩
  · simp [monitorCycle, checkDisconnectRequested, hmem, huid, hu]
  · rw [hreq]
    exact hpost

/-- C2 witness: a concrete state with stored credentials for user U1,
disconnected both by the monitor and by the endpoint. -/
theorem disconnect_clears_credentials_and_pending_witness :
    (monitorCycle true stW = (true, handleDisconnect stW) ∧
      postDisconnect (handleDisconnect stW)) ∧
    ((handleDisconnectRequest { user_id := some "U1", device_id := some "D1" } stW).2 =
        (true, handleDisconnect stW) ∧
      postDisconnect
        (handleDisconnectRequest { user_id := some "U1", device_id := some "D1" } stW).2.2) :=
  disconnect_clears_credentials_and_pending stW credsW "U1"
    { user_id := some "U1", device_id := some "D1" } rfl rfl (by decide) (by decide)

/-- C3: a credential submission accepted by the POST intake handler that
subsequently yields a verified connection (association and internet both
confirmed inside the hotspot handoff) is persisted exactly: the credential
file then holds the submitted ssid, password and user_id, each as trimmed
at intake. -/
theorem intake_roundtrip_credentials
    (u s p : String) (st : DevState) (env : HotspotEnv)
    (hu : pyStrip u ≠ "") (hs : pyStrip s ≠ "") (hp : pyStrip p ≠ "")
    (hstart : env.startOk = true)
    (hconn : tryConnect env.net = true) (hinet : pollInternet env.net = true) :
    ∃ c : StoredCreds,
      (provisionWithHotspotOnce env
        ((handleCredentials
          { user_id := some u, ssid := some s, password := some p } st).2)).2.credsFile
        = some c ∧
      c.ssid = pyStrip s ∧ c.password = pyStrip p ∧ c.user_id = some (pyStrip u) := by
  have h1 : (handleCredentials
      { user_id := some u, ssid := some s, password := some p } st).2 =
      { st with stateFile := some (pendingOf (some (pyStrip u)) (pyStrip s) (pyStrip p) st.now) } := by
    simp [handleCredentials, pendingOf, hu, hs, hp]
  refine ⟨{ ssid := pyStrip s, password := pyStrip p, provisioned_at := st.now,
            device_id := st.device_id, user_id := some (pyStrip u) }, ?_, rfl, rfl, rfl⟩
  rw [h1]
  cases hrep : env.reportOk <;> cases hstat : env.statusOk <;>
    simp [provisionWithHotspotOnce, saveCredentials, pendingOf, hstart, hconn, hinet,
      hs, hp, hu, hrep, hstat]

/-- C3 witness: the submission with user id " U1 ", ssid "Cafe" and
password "hunter2" in an all-success environment ends with exactly those
trimmed values in the credential file. -/
theorem intake_roundtrip_credentials_witness :
    ∃ c : StoredCreds,
      (provisionWithHotspotOnce henvAllOk
        ((handleCredentials
          { user_id := some " U1 ", ssid := some "Cafe", password := some "hunter2" }
          stEmptyW).2)).2.credsFile = some c ∧
      c.ssid = pyStrip "Cafe" ∧ c.password = pyStrip "hunter2" ∧
      c.user_id = some (pyStrip " U1 ") :=
  intake_roundtrip_credentials " U1 " "Cafe" "hunter2" stEmptyW henvAllOk
    (by decide) (by decide) (by decide) rfl (by decide) (by decide)

/-- C4 counterexample: the GET /provision test variant of the intake
service accepts a credential submission in which user_id is missing
entirely (the handler never reads one), returns 200 and writes a pending
submission without a user_id key, contradicting the claim that every
submission missing user_id yields a validation failure with no pending
submission written. -/
theorem intake_get_writes_without_user_id :
    (handleCredentialsGet { ssid := some "Cafe", password := some "hunter2" } stEmptyW).1.status
      = 200 ∧
    (handleCredentialsGet { ssid := some "Cafe", password := some "hunter2" } stEmptyW).2.stateFile
      = some (pendingOf none "Cafe" "hunter2" "t1") := by
  decide

/-- C4 amended: restricted to the POST /provision submit handler the
claim holds: when any of user_id, ssid or password is missing or empty
after trimming, the handler returns 400 and the state is completely
unchanged (credential store untouched, no pending submission written);
when all three are non-empty it returns 200 and its only state change is
writing the pending submission (no network change, store untouched).  The
GET test variant, excluded by the counterexample, accepts a submission
without any user_id. -/
theorem intake_post_validation (body : SubmitBody) (st : DevState) :
    ((pyStrip (body.user_id.getD "") = "" ∨ pyStrip (body.ssid.getD "") = "" ∨
        pyStrip (body.password.getD "") = "") →
      (handleCredentials body st).1.status = 400 ∧ (handleCredentials body st).2 = st) ∧
    ((pyStrip (body.user_id.getD "") ≠ "" ∧ pyStrip (body.ssid.getD "") ≠ "" ∧
        pyStrip (body.password.getD "") ≠ "") →
      (handleCredentials body st).1.status = 200 ∧
      (handleCredentials body st).2 =
        { st with stateFile := some (pendingOf (some (pyStrip (body.user_id.getD "")))
            (pyStrip (body.ssid.getD "")) (pyStrip (body.password.getD "")) st.now) }) := by
  constructor
  · intro h
    rcases h with h | h | h <;> simp [handleCredentials, pendingOf, h]
  · rintro ⟨h1, h2, h3⟩
    simp [handleCredentials, pendingOf, h1, h2, h3]

/-- C4 amended witness: a submission whose password trims to empty is
rejected with the state unchanged, and a complete submission is accepted
with status 200. -/
theorem intake_post_validation_witness :
    ((handleCredentials { user_id := some "U1", ssid := some "Cafe", password := some " " }
        stEmptyW).1.status = 400 ∧
      (handleCredentials { user_id := some "U1", ssid := some "Cafe", password := some " " }
        stEmptyW).2 = stEmptyW) ∧
    (handleCredentials { user_id := some " U1 ", ssid := some "Cafe", password := some "pw" }
        stEmptyW).1.status = 200 := by
  have h1 := (intake_post_validation
    { user_id := some "U1", ssid := some "Cafe", password := some " " } stEmptyW).1
    (by decide)
  have h2 := (intake_post_validation
    { user_id := some " U1 ", ssid := some "Cafe", password := some "pw" } stEmptyW).2
    (by decide)
  exact ⟨h1, h2.1⟩

/-- C5 counterexample: _save_credentials opens the target file with mode
w, which truncates it in place before json.dump writes the record; the
intermediate disk state is a present-but-truncated file that a concurrent
reader can observe and that is neither absent nor fully populated, so the
write-then-rename guarantee claimed does not hold. -/
theorem save_truncation_observable :
    some DiskFile.truncated ∈ saveDiskStates credsW (some (DiskFile.full credsW)) ∧
    wellFormedDisk (some DiskFile.truncated) = false := by
  decide

/-- C5 amended: a completed _save_credentials call does leave the file
fully populated (with non-empty ssid and password it satisfies the
at-rest invariant), but the write is an in-place truncate-then-write, not
write-then-rename: the observable sequence of disk states passes through
a truncated file, so a concurrent reader can observe a torn write. -/
theorem save_final_state_well_formed (c : StoredCreds) (d0 : Option DiskFile)
    (hs : c.ssid ≠ "") (hp : c.password ≠ "") :
    (saveDiskStates c d0).getLast? = some (some (DiskFile.full c)) ∧
    wellFormedDisk (some (DiskFile.full c)) = true ∧
    some DiskFile.truncated ∈ saveDiskStates c d0 := by
  refine ⟨rfl, ?_, by simp [saveDiskStates]⟩
  simp [wellFormedDisk, Bool.and_eq_true, bne_iff_ne, hs, hp]

/-- C5 amended witness: the concrete credential record, saved over an
absent file. -/
theorem save_final_state_well_formed_witness :
    (saveDiskStates credsW none).getLast? = some (some (DiskFile.full credsW)) ∧
    wellFormedDisk (some (DiskFile.full credsW)) = true ∧
    some DiskFile.truncated ∈ saveDiskStates credsW none :=
  save_final_state_well_formed credsW none (by decide) (by decide)

/-- C6 counterexample: _delete_credentials on a state whose credential
file is already absent returns False, not success, because the os.remove
branch is skipped and the fall-through return value is False. -/
theorem erase_absent_returns_false :
    stEmptyW.credsFile = none ∧ (deleteCredentials stEmptyW).1 = false := by
  decide

/-- C6 amended: erase is idempotent in its effect, not in its return
value: after any call the file is absent, a second call changes nothing,
and the call reports success exactly when a file was actually removed —
so erasing an already-absent store is a harmless no-op that returns
False. -/
theorem erase_idempotent_effect (st : DevState) :
    (deleteCredentials st).1 = st.credsFile.isSome ∧
    (deleteCredentials st).2.credsFile = none ∧
    deleteCredentials (deleteCredentials st).2 = (false, (deleteCredentials st).2) := by
  cases h : st.credsFile <;> simp [deleteCredentials, h]

/-- C7 counterexample: an interface report whose only inet address is
192.168.50.2 — inside the access point's reserved 192.168.50.x hotspot
range — makes _check_wifi_connected return true, although the claim
requires false for every interface state whose only address lies inside
the reserved range; the code only excludes the literal substring
192.168.50.1. -/
theorem assoc_check_true_inside_reserved_range :
    checkWifiConnected hotspotRangeOnlyReport = true ∧
    ((splitLines hotspotRangeOnlyReport).all
      fun line => !(containsSub line "inet ") || containsSub line "inet 192.168.50.") = true := by
  decide

/-- C7 amended: the association check returns true exactly when some line
of the interface report contains the substring "inet " and does not
contain the substring "192.168.50.1": only the access point's own address
(and any address containing it textually) is excluded, not the whole
192.168.50.x reserved range; in particular the hotspot's own address
yields false while an outside address yields true. -/
theorem assoc_check_excludes_only_ap_address (stdout : String) :
    (checkWifiConnected stdout = true ↔
      ∃ line ∈ splitLines stdout,
        containsSub line "inet " = true ∧ containsSub line "192.168.50.1" = false) ∧
    checkWifiConnected "    inet 192.168.50.1/24 scope global wlan0" = false ∧
    checkWifiConnected "    inet 172.20.10.2/28 scope global wlan0" = true := by
  refine ⟨?_, by decide, by decide⟩
  simp [checkWifiConnected, List.any_eq_true, Bool.and_eq_true, Bool.not_eq_true']

/-- C8 counterexample: a concrete run in which the monitor detects a
disconnect and stops during the first connected phase, the next iteration
fails (hotspot re-provisioning), and a later iteration reaches a second
connected phase: the whole run trace contains exactly one monitor start,
so the orchestrator loop does not start a new monitor task on its next
connected phase and disconnect polling is absent there. -/
theorem monitor_never_restarted_example :
    (monitorRun (fun _ => true) 1 stW).1 = true ∧
    (runTrace (fun i => i != 1) 3).count RunAction.startMonitor = 1 ∧
    (runTrace (fun i => i != 1) 3).count (RunAction.loopIter true) = 2 := by
  decide

/-- C8 amended: run creates the connectivity monitor task exactly once,
before the first loop iteration; no loop iteration ever creates another
one, so once the monitor stops after handling a disconnect, every later
connected phase runs without disconnect polling. -/
theorem monitor_started_exactly_once (results : Nat → Bool) (n : Nat) :
    (runTrace results n).count RunAction.startMonitor = 1 ∧
    (runTrace results n).head? = some RunAction.startMonitor ∧
    ∀ a ∈ (runTrace results n).tail, a ≠ RunAction.startMonitor := by
  refine ⟨?_, rfl, ?_⟩
  · have h0 : (List.count RunAction.startMonitor
        ((List.range n).map fun i => RunAction.loopIter (results i))) = 0 := by
      rw [List.count_eq_zero]
      simp [List.mem_map]
    simp [runTrace, List.count_cons, h0]
  · intro a ha
    simp only [runTrace, List.tail_cons, List.mem_map] at ha
    obtain ⟨i, _, rfl⟩ := ha
    simp

/-- C9 counterexample: with a pending submission, a successful connection
and verified internet, but a failing Supabase report, the hotspot-handoff
phase exits returning False while the handoff state file is still
present — the consumed submission is not cleared and would be picked up
again, contradicting the claim that every exit path of the phase ends
with the state file absent. -/
theorem handoff_report_failure_keeps_state_file :
    (provisionWithHotspotOnce henvReportFail stPendingW).1 = HotspotExit.reportFail ∧
    (provisionWithHotspotOnce henvReportFail stPendingW).2.stateFile = some pendingW := by
  decide

/-- C9 amended: on the three named exit paths of the hotspot-handoff
phase — full success, connection failure after the bounded retries, and
internet-verification failure — the handoff state file does end absent;
the claim fails only on the unnamed exits where connection and internet
succeed but the backend report or the status update fails, which leave
the file present. -/
theorem handoff_named_exits_clear_state_file (env : HotspotEnv) (st : DevState)
    (h : (provisionWithHotspotOnce env st).1 = HotspotExit.success ∨
      (provisionWithHotspotOnce env st).1 = HotspotExit.connFail ∨
      (provisionWithHotspotOnce env st).1 = HotspotExit.inetFail) :
    (provisionWithHotspotOnce env st).2.stateFile = none := by
  by_cases hstart : env.startOk = false
  · simp [provisionWithHotspotOnce, hstart] at h
  · rcases hsf : st.stateFile with _ | p
    · simp [provisionWithHotspotOnce, hstart, hsf] at h
    · by_cases hps : p.status = "processing"
      · by_cases hcr : p.ssid = "" ∨ p.password = ""
        · simp [provisionWithHotspotOnce, hstart, hsf, hps, hcr] at h
        · cases hconn : tryConnect env.net
          · simp [provisionWithHotspotOnce, hstart, hsf, hps, hcr, hconn]
          · cases hinet : pollInternet env.net
            · simp [provisionWithHotspotOnce, hstart, hsf, hps, hcr, hconn, hinet]
            · cases hrep : env.reportOk
              · simp [provisionWithHotspotOnce, hstart, hsf, hps, hcr, hconn,
                  hinet, hrep] at h
              · cases hstat : env.statusOk
                · simp [provisionWithHotspotOnce, hstart, hsf, hps, hcr, hconn,
                    hinet, hrep, hstat] at h
                · simp [provisionWithHotspotOnce, saveCredentials, hstart, hsf,
                    hps, hcr, hconn, hinet, hrep, hstat]
      · simp [provisionWithHotspotOnce, hstart, hsf, hps] at h

/-- C9 amended witness: a connection-failure exit from a concrete pending
state ends with the state file absent. -/
theorem handoff_named_exits_clear_state_file_witness :
    (provisionWithHotspotOnce henvConnFail stPendingW).2.stateFile = none :=
  handoff_named_exits_clear_state_file henvConnFail stPendingW (by decide)

/-- C10: every HTTP disconnect request whose body carries a non-empty
trimmed user_id gets a 200 success response with the supplied device_id
merely echoed back, and the full disconnect procedure is scheduled; the
device_id is never validated against the device's own identity — the
response is unchanged under any substitution of the device's own id, so
an empty or foreign device_id is accepted. -/
theorem disconnect_endpoint_ignores_device_id (body : DisconnectBody) (st : DevState)
    (hu : pyStrip (body.user_id.getD "") ≠ "") :
    (handleDisconnectRequest body st).1.status = 200 ∧
    (handleDisconnectRequest body st).1.success = true ∧
    (handleDisconnectRequest body st).1.device_id = some (pyStrip (body.device_id.getD "")) ∧
    (handleDisconnectRequest body st).2.1 = true ∧
    ∀ d : String, (handleDisconnectRequest body { st with device_id := d }).1 =
      (handleDisconnectRequest body st).1 := by
  simp [handleDisconnectRequest, hu]

/-- C10 witness: a request naming a foreign device id OTHER against the
device whose own id is D1 is accepted and echoed. -/
theorem disconnect_endpoint_ignores_device_id_witness :
    (handleDisconnectRequest { user_id := some "U1", device_id := some "OTHER" } stW).1.status
      = 200 ∧
    (handleDisconnectRequest { user_id := some "U1", device_id := some "OTHER" } stW).1.success
      = true ∧
    (handleDisconnectRequest { user_id := some "U1", device_id := some "OTHER" } stW).1.device_id
      = some (pyStrip "OTHER") ∧
    (handleDisconnectRequest { user_id := some "U1", device_id := some "OTHER" } stW).2.1
      = true := by
  have h := disconnect_endpoint_ignores_device_id
    { user_id := some "U1", device_id := some "OTHER" } stW (by decide)
  exact ⟨h.1, h.2.1, h.2.2.1, h.2.2.2.1⟩
